import Mathlib

/-!
Verification of the geofenced attendance workflow and the push relay of the
photo-app repository, as a shallow embedding in Lean 4.

Sources embedded:
- supabase/functions/send-hazard-push/index.ts  (namespace Push)
- app/(tabs)/index.tsx:
  - getPositionByWatching       (namespace Watch: event-loop interleavings)
  - getReliablePositionForPhoneTotalTimeout (namespace Chain)
  - distanceMeters / haversine  (namespace Hav, over the reals)
  - getCurrentLocationChecked, doClockIn, doClockOut (namespace App)

Conventions: JavaScript numbers that only flow through finiteness checks and
comparisons are modelled by the type App.JsNum (a rational or one of the
non-finite values NaN / Infinity / -Infinity); async calls that can throw or
time out are modelled by Option or explicit outcome types; the event-loop
interleaving of getPositionByWatching is modelled by a step function over the
possible event orders.  All definitions in the App, Push, Watch and Chain
namespaces are computable, so claims can be evaluated at concrete inputs.
-/

namespace Push

/-- Batch size limit of the push relay: const CHUNK = 90. -/
def CHUNK : Nat := 90

/-- Token filter of the relay: t.startsWith("ExponentPushToken[") ||
t.startsWith("ExpoPushToken["). -/
def isEligibleToken (t : String) : Bool :=
  t.startsWith "ExponentPushToken[" || t.startsWith "ExpoPushToken["

/-- The slicing loop: for (let i = 0; i < tokens.length; i += CHUNK)
chunk = tokens.slice(i, i + CHUNK).  Written with a fuel argument (the list
length suffices, each step consumes at least one element) so that it is
structurally recursive and reduces definitionally. -/
def chunksAux : Nat → List String → List (List String)
  | 0, _ => []
  | _, [] => []
  | fuel + 1, l => l.take CHUNK :: chunksAux fuel (l.drop CHUNK)

/-- The batches the relay sends, in order. -/
def chunks (tokens : List String) : List (List String) :=
  chunksAux tokens.length tokens

/-- The gateway loop body: results.push(r); if (r.ok) sent += chunk.length.
The argument g gives the gateway outcome (r.ok) of each batch, by batch
index; the result is (the results array as its ok flags, sent). -/
def relayLoop (g : Nat → Bool) : Nat → List (List String) → List Bool × Nat
  | _, [] => ([], 0)
  | i, c :: rest =>
    let r := g i
    let out := relayLoop g (i + 1) rest
    (r :: out.1, (if r then c.length else 0) + out.2)

/-- The JSON bodies the handler can answer with on the paths the claims
touch: 200 {ok:true, sent:0, reason:"no_admin_tokens"} and
200 {ok:true, adminCountWithToken, sent, results}. -/
inductive PushResponse where
  | noAdminTokens
  | success (adminCountWithToken : Nat) (sent : Nat) (results : List Bool)
deriving DecidableEq, Repr

/-- Whether a response carries ok:true (both modelled responses do). -/
def PushResponse.okTrue : PushResponse → Bool
  | .noAdminTokens => true
  | .success _ _ _ => true

/-- The handler from the point where the filtered token list is known
(index.ts lines 104-127): tokens is the filtered list, g the gateway outcome
per batch index. -/
def relay (tokens : List String) (g : Nat → Bool) : PushResponse :=
  if tokens.length = 0 then .noAdminTokens
  else
    let out := relayLoop g 0 (chunks tokens)
    .success tokens.length out.2 out.1

end Push

namespace Watch

/-- Events of the event loop while one call of getPositionByWatching runs:
the setTimeout timer fires; the watchPositionAsync promise resolves (the
platform subscription now exists and the .then handler stores it in sub) or
rejects; the position callback delivers a fix with finite or non-finite
coordinates. -/
inductive WEv where
  | timerFire
  | watchOk
  | watchErr
  | locFix (finite : Bool)
deriving DecidableEq, Repr

/-- How the promise returned by getPositionByWatching settled. -/
inductive WResult where
  | fix
  | timeout
  | startErr
deriving DecidableEq, Repr

/-- The closure state of one getPositionByWatching call: the settled flag,
how the promise settled, the sub variable, whether the platform subscription
exists and has not been removed, and the timer/watch bookkeeping that rules
out impossible event orders (the timer fires at most once, the watch promise
settles at most once, fixes are only delivered while the subscription is
active). -/
structure WState where
  settled : Bool
  result : Option WResult
  subVar : Bool
  subActive : Bool
  timerFired : Bool
  timerCleared : Bool
  watchSettled : Bool
deriving DecidableEq, Repr

def initW : WState :=
  { settled := false, result := none, subVar := false, subActive := false,
    timerFired := false, timerCleared := false, watchSettled := false }

/-- One event against the code of getPositionByWatching (index.tsx 128-168).
timerFire: if (settled) return; settled = true; sub?.remove(); reject(GPS_TIMEOUT).
watchOk: the promise resolves with the live subscription and the .then
handler runs sub = s, with no settled check and no removal.
watchErr: if (settled) return; settled = true; clearTimeout; reject(e).
locFix: if (settled) return; skip non-finite coordinates; settled = true;
clearTimeout; sub?.remove(); resolve(loc). -/
def stepW (s : WState) (e : WEv) : WState :=
  match e with
  | .timerFire =>
    if s.timerFired || s.timerCleared then s
    else if s.settled then { s with timerFired := true }
    else
      { s with
        timerFired := true
        settled := true
        result := some WResult.timeout
        subActive := if s.subVar then false else s.subActive }
  | .watchOk =>
    if s.watchSettled then s
    else { s with watchSettled := true, subActive := true, subVar := true }
  | .watchErr =>
    if s.watchSettled then s
    else if s.settled then { s with watchSettled := true }
    else
      { s with
        watchSettled := true
        settled := true
        timerCleared := true
        result := some WResult.startErr }
  | .locFix fin =>
    if !s.subActive then s
    else if s.settled then s
    else if !fin then s
    else
      { s with
        settled := true
        timerCleared := true
        result := some WResult.fix
        subActive := if s.subVar then false else s.subActive }

/-- The state after an event order. -/
def runW (evs : List WEv) : WState := evs.foldl stepW initW

end Watch

namespace Chain

/-- Timeout of step 1, withTimeout(Location.getLastKnownPositionAsync(), 2500). -/
def LAST_KNOWN_TIMEOUT_MS : Nat := 2500

/-- Timeout of step 2, the low-accuracy single shot. -/
def CURRENT_LOWEST_TIMEOUT_MS : Nat := 8000

/-- Timeout of step 3, getPositionByWatching(9000, Balanced). -/
def WATCH_BALANCED_TIMEOUT_MS : Nat := 9000

/-- Timeout of step 4, getPositionByWatching(9000, High). -/
def WATCH_HIGH_TIMEOUT_MS : Nat := 9000

/-- The outer deadline, const GPS_TOTAL_TIMEOUT_MS = 25000. -/
def GPS_TOTAL_TIMEOUT_MS : Nat := 25000

/-- The try/catch cascade inside getReliablePositionForPhoneTotalTimeout.
Each step outcome is given as an input: for the last-known step, none means
the call threw or timed out and some none that it resolved null (both fall
through to the next step, matching the try/catch plus the if (last) guard);
for the other steps none means the call threw or timed out.  The last step
has no catch, so its failure is the failure of the whole chain. -/
def chainBody {Pos : Type} (lastKnown : Option (Option Pos))
    (currentLowest watchBalanced watchHigh : Option Pos) :
    Option (Pos × String) :=
  match lastKnown with
  | some (some p) => some (p, "last_known")
  | _ =>
    match currentLowest with
    | some p => some (p, "current_lowest")
    | none =>
      match watchBalanced with
      | some p => some (p, "watch_balanced")
      | none => watchHigh.map (fun p => (p, "watch_high"))

/-- The whole function: the cascade raced against the one outer deadline
(withTimeout ... GPS_TOTAL_TIMEOUT_MS); outerTimeout says the deadline
elapsed before the cascade settled. -/
def getReliablePositionForPhoneTotalTimeout {Pos : Type} (outerTimeout : Bool)
    (lastKnown : Option (Option Pos))
    (currentLowest watchBalanced watchHigh : Option Pos) :
    Option (Pos × String) :=
  if outerTimeout then none
  else chainBody lastKnown currentLowest watchBalanced watchHigh

end Chain

namespace Hav

/-- const toRad = (v) => (v * Math.PI) / 180. -/
noncomputable def toRad (v : ℝ) : ℝ := v * Real.pi / 180

/-- Math.atan2 over the reals, by its quadrant definition. -/
noncomputable def atan2 (y x : ℝ) : ℝ :=
  if 0 < x then Real.arctan (y / x)
  else if x < 0 then
    if 0 ≤ y then Real.arctan (y / x) + Real.pi
    else Real.arctan (y / x) - Real.pi
  else if 0 < y then Real.pi / 2
  else if y < 0 then -(Real.pi / 2)
  else 0

/-- The intermediate value a of distanceMeters:
sin(dLat/2)^2 + cos(toRad lat1) * cos(toRad lat2) * sin(dLon/2)^2. -/
noncomputable def havTerm (lat1 lon1 lat2 lon2 : ℝ) : ℝ :=
  Real.sin (toRad (lat2 - lat1) / 2) ^ 2 +
    Real.cos (toRad lat1) * Real.cos (toRad lat2) *
      Real.sin (toRad (lon2 - lon1) / 2) ^ 2

/-- distanceMeters of index.tsx lines 109-119: R = 6371000,
c = 2 * atan2(sqrt a, sqrt (1 - a)), result R * c. -/
noncomputable def distanceMeters (lat1 lon1 lat2 lon2 : ℝ) : ℝ :=
  6371000 *
    (2 * atan2 (Real.sqrt (havTerm lat1 lon1 lat2 lon2))
      (Real.sqrt (1 - havTerm lat1 lon1 lat2 lon2)))

end Hav

namespace App

/-- A JavaScript number as the workflow observes it: a finite value (kept
exact as a rational) or NaN / Infinity / -Infinity.  Number.isFinite is
true exactly on the first form. -/
inductive JsNum where
  | fin (q : ℚ)
  | nan
  | inf
  | ninf
deriving DecidableEq, Repr

/-- Number.isFinite. -/
def JsNum.isFinite : JsNum → Bool
  | .fin _ => true
  | _ => false

/-- const CENTER_LAT = 37.0778566841938. -/
def CENTER_LAT : ℚ := 37.0778566841938

/-- const CENTER_LNG = 126.954553958864. -/
def CENTER_LNG : ℚ := 126.954553958864

/-- const MAX_DISTANCE_M = 1000. -/
def MAX_DISTANCE_M : ℚ := 1000

/-- const ALLOW_FALLBACK_CLOCK = true. -/
def ALLOW_FALLBACK_CLOCK : Bool := true

/-- Math.round on a finite value: round half toward positive infinity. -/
def jsRound (q : ℚ) : ℤ := ⌊q + 1 / 2⌋

/-- The coordinates and source of a result of the acquisition chain, as
getCurrentLocationChecked reads them (result.pos.coords.latitude/longitude,
result.pos.coords.accuracy if it is a number, result.source). -/
structure AcqRes where
  latitude : JsNum
  longitude : JsNum
  accuracy : Option JsNum
  source : String
deriving DecidableEq, Repr

/-- The ClockLoc result type of getCurrentLocationChecked. -/
structure ClockLoc where
  lat : JsNum
  lng : JsNum
  dist : JsNum
  accuracy : Option JsNum
  fallback : Bool
  source : String
deriving DecidableEq, Repr

/-- The alerts getCurrentLocationChecked can show, one per return path. -/
inductive LocAlert where
  | serviceOff
  | permNeeded
  | locFail
  | coordInvalid
  | distInvalid
  | outOfRange (rounded : ℤ)
  | catchFail
deriving DecidableEq, Repr

/-- The alert body texts (the out-of-range body carries the rounded measured
distance, as in the source). -/
def locAlertMessage : LocAlert → String
  | .serviceOff => "휴대폰 설정에서 위치(GPS)를 켜고 다시 시도해주세요."
  | .permNeeded => "출퇴근 처리를 위해 위치 권한을 허용해주세요."
  | .locFail => "GPS를 가져오지 못했습니다. 창가/야외로 이동 후 다시 시도해주세요."
  | .coordInvalid => "현재 위치 좌표가 올바르지 않습니다. 다시 시도해주세요."
  | .distInvalid => "현재 위치를 계산할 수 없습니다. 다시 시도해주세요."
  | .outOfRange r =>
    "센터 기준 1km 이내에서만 가능합니다.\n현재 거리: " ++ toString r ++ "m"
  | .catchFail => "위치 실패"

/-- The environment one call of getCurrentLocationChecked runs in: the
outcome of each awaited call.  none for services / permissions means the
call threw or timed out (routed to the outer catch); none for acq means
getReliablePositionForPhoneTotalTimeout threw or timed out (the inner
try/catch sets result = null). -/
structure LocEnv where
  services : Option Bool
  perm0 : Option String
  permReq : Option String
  acq : Option AcqRes
deriving DecidableEq, Repr

/-- What one call of getCurrentLocationChecked did: the returned value, the
alerts shown, and each call of distanceMeters with the latitude/longitude it
received (so the claims can speak about what reaches the geofence check). -/
structure LocOutcome where
  res : Option ClockLoc
  alerts : List LocAlert
  distCalls : List (JsNum × JsNum)
deriving DecidableEq, Repr

/-- The hardcoded-center fallback object returned on the failure branches
when ALLOW_FALLBACK_CLOCK is set: lat CENTER_LAT, lng CENTER_LNG, dist 0,
accuracy null, fallback true, source "fallback_center". -/
def fallbackCenterLoc : ClockLoc :=
  { lat := JsNum.fin CENTER_LAT, lng := JsNum.fin CENTER_LNG,
    dist := JsNum.fin 0, accuracy := none, fallback := true,
    source := "fallback_center" }

/-- The catch branch of getCurrentLocationChecked (index.tsx 701-714). -/
def catchOutcome (allow : Bool) : LocOutcome :=
  if allow then { res := some fallbackCenterLoc, alerts := [], distCalls := [] }
  else { res := none, alerts := [LocAlert.catchFail], distCalls := [] }

/-- Lines 629-700 of getCurrentLocationChecked, from the acquisition on:
the null / missing-coords check, the finite-coordinates check, the distance
computation (dM is the JavaScript-number valued
distanceMeters(lat, lng, CENTER_LAT, CENTER_LNG)), the finite-distance
check, the geofence comparison, and the success object. -/
def acquisitionPart (allow : Bool) (dM : JsNum → JsNum → JsNum)
    (acq : Option AcqRes) : LocOutcome :=
  match acq with
  | none =>
    if allow then { res := some fallbackCenterLoc, alerts := [], distCalls := [] }
    else { res := none, alerts := [LocAlert.locFail], distCalls := [] }
  | some r =>
    if !(r.latitude.isFinite && r.longitude.isFinite) then
      if allow then { res := some fallbackCenterLoc, alerts := [], distCalls := [] }
      else { res := none, alerts := [LocAlert.coordInvalid], distCalls := [] }
    else
      match dM r.latitude r.longitude with
      | JsNum.fin d =>
        if d > MAX_DISTANCE_M then
          { res := none, alerts := [LocAlert.outOfRange (jsRound d)],
            distCalls := [(r.latitude, r.longitude)] }
        else
          { res := some
              { lat := r.latitude, lng := r.longitude, dist := JsNum.fin d,
                accuracy := r.accuracy, fallback := false,
                source := if r.source = "" then "gps" else r.source },
            alerts := [], distCalls := [(r.latitude, r.longitude)] }
      | _ =>
        if allow then
          { res := some fallbackCenterLoc, alerts := [],
            distCalls := [(r.latitude, r.longitude)] }
        else
          { res := none, alerts := [LocAlert.distInvalid],
            distCalls := [(r.latitude, r.longitude)] }

/-- getCurrentLocationChecked (index.tsx 598-715): the services check, the
permission check with one request retry, then the acquisition part; any
throw of the awaited service/permission calls lands in the outer catch. -/
def getCurrentLocationChecked (allow : Bool) (dM : JsNum → JsNum → JsNum)
    (env : LocEnv) : LocOutcome :=
  match env.services with
  | none => catchOutcome allow
  | some false => { res := none, alerts := [LocAlert.serviceOff], distCalls := [] }
  | some true =>
    match env.perm0 with
    | none => catchOutcome allow
    | some st0 =>
      match (if st0 = "granted" then some st0 else env.permReq) with
      | none => catchOutcome allow
      | some st =>
        if st ≠ "granted" then
          { res := none, alerts := [LocAlert.permNeeded], distCalls := [] }
        else acquisitionPart allow dM env.acq

/-- The environment reaches the acquisition part: the services call returned
true and the permission status is granted, directly or after the request. -/
def grantedPath (env : LocEnv) : Prop :=
  env.services = some true ∧
    (env.perm0 = some "granted" ∨
      (∃ s0, env.perm0 = some s0 ∧ s0 ≠ "granted" ∧ env.permReq = some "granted"))

/-- A row of the work_shifts collection as the client reads it back. -/
structure AttRow where
  id : String
  user_id : String
  work_date : String
  status : String
  clock_in_at : Option String
  clock_out_at : Option String
  clock_in_lat : Option JsNum
  clock_in_lng : Option JsNum
  clock_in_accuracy_m : Option JsNum
  clock_in_source : Option String
  clock_out_lat : Option JsNum
  clock_out_lng : Option JsNum
  clock_out_accuracy_m : Option JsNum
  clock_out_source : Option String
  created_at : String
  updated_at : Option String
deriving DecidableEq, Repr

/-- An upsert payload on work_shifts: a column is some value exactly when
the JavaScript object literal carries that key.  The accuracy columns carry
an Option because the code writes loc.accuracy ?? null. -/
structure ShiftPayload where
  user_id : Option String
  work_date : Option String
  status : Option String
  clock_in_at : Option String
  clock_in_lat : Option JsNum
  clock_in_lng : Option JsNum
  clock_in_accuracy_m : Option (Option JsNum)
  clock_in_source : Option String
  clock_out_at : Option String
  clock_out_lat : Option JsNum
  clock_out_lng : Option JsNum
  clock_out_accuracy_m : Option (Option JsNum)
  clock_out_source : Option String
deriving DecidableEq, Repr

/-- The payload with no keys. -/
def emptyPayload : ShiftPayload :=
  { user_id := none, work_date := none, status := none, clock_in_at := none,
    clock_in_lat := none, clock_in_lng := none, clock_in_accuracy_m := none,
    clock_in_source := none, clock_out_at := none, clock_out_lat := none,
    clock_out_lng := none, clock_out_accuracy_m := none,
    clock_out_source := none }

/-- Modelled from the spec: the backend collaborator's upsert keyed by
(user_id, work_date) (spec section 6; the backend itself is external to the
repository).  On conflict the row keeps its old value in every column the
payload does not carry and takes the payload value in every column it does. -/
def applyShiftPayload (old : AttRow) (p : ShiftPayload) : AttRow :=
  { old with
    user_id := p.user_id.getD old.user_id
    work_date := p.work_date.getD old.work_date
    status := p.status.getD old.status
    clock_in_at := (p.clock_in_at.map some).getD old.clock_in_at
    clock_in_lat := (p.clock_in_lat.map some).getD old.clock_in_lat
    clock_in_lng := (p.clock_in_lng.map some).getD old.clock_in_lng
    clock_in_accuracy_m := p.clock_in_accuracy_m.getD old.clock_in_accuracy_m
    clock_in_source := (p.clock_in_source.map some).getD old.clock_in_source
    clock_out_at := (p.clock_out_at.map some).getD old.clock_out_at
    clock_out_lat := (p.clock_out_lat.map some).getD old.clock_out_lat
    clock_out_lng := (p.clock_out_lng.map some).getD old.clock_out_lng
    clock_out_accuracy_m := p.clock_out_accuracy_m.getD old.clock_out_accuracy_m
    clock_out_source := (p.clock_out_source.map some).getD old.clock_out_source }

/-- The clock-in upsert object (index.tsx 750-759): user_id, work_date,
status open and the four clock-in fields; no clock-out key. -/
def clockInPayload (uid workDate nowIso : String) (loc : ClockLoc)
    (source : String) : ShiftPayload :=
  { emptyPayload with
    user_id := some uid
    work_date := some workDate
    status := some "open"
    clock_in_at := some nowIso
    clock_in_lat := some loc.lat
    clock_in_lng := some loc.lng
    clock_in_accuracy_m := some loc.accuracy
    clock_in_source := some source }

/-- The clock-out upsert object (index.tsx 844-853): user_id, work_date,
status closed and the four clock-out fields; no clock-in key. -/
def clockOutPayload (uid workDate nowIso : String) (loc : ClockLoc)
    (source : String) : ShiftPayload :=
  { emptyPayload with
    user_id := some uid
    work_date := some workDate
    status := some "closed"
    clock_out_at := some nowIso
    clock_out_lat := some loc.lat
    clock_out_lng := some loc.lng
    clock_out_accuracy_m := some loc.accuracy
    clock_out_source := some source }

/-- An insert on the work_events collection. -/
structure EventInsert where
  shift_id : Option String
  user_id : String
  event_type : String
  occurred_at : String
  lat : JsNum
  lng : JsNum
  accuracy_m : Option JsNum
  source : String
  payload_work_date : String
deriving DecidableEq, Repr

/-- Outcome of one awaited backend call. -/
inductive DbResult (α : Type) where
  | err (msg : String)
  | ok (v : α)
deriving DecidableEq, Repr

/-- The signed-in session. -/
structure Session where
  userId : String
deriving DecidableEq, Repr

/-- The state and call outcomes one doClockIn / doClockOut invocation sees:
the busy flag, the session (none when requireSession failed), the in-memory
today record att, the result of getCurrentLocationChecked (none when it
returned null after its own alert), the timestamps, and the two backend
call outcomes. -/
structure ClockEnv where
  busy : Bool
  session : Option Session
  att : Option AttRow
  loc : Option ClockLoc
  nowIso : String
  workDate : String
  upsertRes : DbResult AttRow
  eventRes : DbResult Unit
deriving DecidableEq, Repr

/-- The alerts the clock handlers show. -/
inductive ClockAlert where
  | infoAlreadyIn (t : String)
  | infoNoClockIn
  | infoAlreadyOut (t : String)
  | successIn (t : String)
  | successOut (t : String)
  | failIn (msg : String)
  | failOut (msg : String)
deriving DecidableEq, Repr

/-- What one doClockIn / doClockOut invocation did: the resulting in-memory
today record, the alerts in order, the attempted work_shifts upserts and
work_events inserts, whether the best-effort event insert succeeded (none
when it was never attempted), and the busy flag afterwards. -/
structure ClockOutcome where
  att : Option AttRow
  alerts : List ClockAlert
  shiftWrites : List ShiftPayload
  eventWrites : List EventInsert
  eventOk : Option Bool
  busyAfter : Bool
deriving DecidableEq, Repr

/-- doClockIn (index.tsx 718-802): the busy guard, the session guard, the
already-clocked-in precondition, the location acquisition (loc none means
getCurrentLocationChecked already alerted and returned null), the upsert,
the best-effort work_events insert whose failure is swallowed by
try { ... } catch {}, the in-memory update and the success alert; the
finally block clears the busy flag. -/
def doClockIn (env : ClockEnv) : ClockOutcome :=
  if env.busy then
    { att := env.att, alerts := [], shiftWrites := [], eventWrites := [],
      eventOk := none, busyAfter := env.busy }
  else
    match env.session with
    | none =>
      { att := env.att, alerts := [], shiftWrites := [], eventWrites := [],
        eventOk := none, busyAfter := false }
    | some s =>
      match Option.bind env.att AttRow.clock_in_at with
      | some t =>
        { att := env.att, alerts := [ClockAlert.infoAlreadyIn t],
          shiftWrites := [], eventWrites := [], eventOk := none,
          busyAfter := false }
      | none =>
        match env.loc with
        | none =>
          { att := env.att, alerts := [], shiftWrites := [], eventWrites := [],
            eventOk := none, busyAfter := false }
        | some loc =>
          let source := loc.source
          let payload := clockInPayload s.userId env.workDate env.nowIso loc source
          match env.upsertRes with
          | DbResult.err m =>
            { att := env.att, alerts := [ClockAlert.failIn m],
              shiftWrites := [payload], eventWrites := [], eventOk := none,
              busyAfter := false }
          | DbResult.ok row =>
            let ev : EventInsert :=
              { shift_id := some row.id, user_id := s.userId,
                event_type := "clock_in", occurred_at := env.nowIso,
                lat := loc.lat, lng := loc.lng, accuracy_m := loc.accuracy,
                source := source, payload_work_date := env.workDate }
            let evOk := match env.eventRes with
              | DbResult.ok _ => true
              | DbResult.err _ => false
            { att := some row, alerts := [ClockAlert.successIn env.nowIso],
              shiftWrites := [payload], eventWrites := [ev],
              eventOk := some evOk, busyAfter := false }

/-- doClockOut (index.tsx 805-896): as doClockIn, with the no-clock-in and
already-clocked-out preconditions, status closed and the clock-out fields. -/
def doClockOut (env : ClockEnv) : ClockOutcome :=
  if env.busy then
    { att := env.att, alerts := [], shiftWrites := [], eventWrites := [],
      eventOk := none, busyAfter := env.busy }
  else
    match env.session with
    | none =>
      { att := env.att, alerts := [], shiftWrites := [], eventWrites := [],
        eventOk := none, busyAfter := false }
    | some s =>
      match Option.bind env.att AttRow.clock_in_at with
      | none =>
        { att := env.att, alerts := [ClockAlert.infoNoClockIn],
          shiftWrites := [], eventWrites := [], eventOk := none,
          busyAfter := false }
      | some _ =>
        match Option.bind env.att AttRow.clock_out_at with
        | some t =>
          { att := env.att, alerts := [ClockAlert.infoAlreadyOut t],
            shiftWrites := [], eventWrites := [], eventOk := none,
            busyAfter := false }
        | none =>
          match env.loc with
          | none =>
            { att := env.att, alerts := [], shiftWrites := [],
              eventWrites := [], eventOk := none, busyAfter := false }
          | some loc =>
            let source := loc.source
            let payload := clockOutPayload s.userId env.workDate env.nowIso loc source
            match env.upsertRes with
            | DbResult.err m =>
              { att := env.att, alerts := [ClockAlert.failOut m],
                shiftWrites := [payload], eventWrites := [], eventOk := none,
                busyAfter := false }
            | DbResult.ok row =>
              let ev : EventInsert :=
                { shift_id := some row.id, user_id := s.userId,
                  event_type := "clock_out", occurred_at := env.nowIso,
                  lat := loc.lat, lng := loc.lng, accuracy_m := loc.accuracy,
                  source := source, payload_work_date := env.workDate }
              let evOk := match env.eventRes with
                | DbResult.ok _ => true
                | DbResult.err _ => false
              { att := some row, alerts := [ClockAlert.successOut env.nowIso],
                shiftWrites := [payload], eventWrites := [ev],
                eventOk := some evOk, busyAfter := false }

end App

/-! Concrete fixtures used by witnesses and counterexamples. -/

/-- 250 eligible tokens. -/
def c1Tokens : List String := List.replicate 250 "ExponentPushToken[abc]"

/-- Gateway outcomes: the second batch fails, the others succeed. -/
def c1Gateway : Nat → Bool := fun i => i != 1

/-- An acquisition result with finite coordinates. -/
def acqFar : App.AcqRes :=
  { latitude := App.JsNum.fin 37, longitude := App.JsNum.fin 127,
    accuracy := none, source := "last_known" }

/-- An acquisition result whose latitude is NaN. -/
def acqNan : App.AcqRes :=
  { latitude := App.JsNum.nan, longitude := App.JsNum.fin 127,
    accuracy := none, source := "watch_high" }

/-- A services-on, permission-granted environment around acqFar. -/
def envFar : App.LocEnv :=
  { services := some true, perm0 := some "granted",
    permReq := some "granted", acq := some acqFar }

/-- The same environment with the NaN acquisition. -/
def envNan : App.LocEnv :=
  { services := some true, perm0 := some "granted",
    permReq := some "granted", acq := some acqNan }

/-- The same environment with the acquisition failed outright. -/
def envNone : App.LocEnv :=
  { services := some true, perm0 := some "granted",
    permReq := some "granted", acq := none }

/-- A distance oracle measuring 1001 meters. -/
def dm1001 : App.JsNum → App.JsNum → App.JsNum := fun _ _ => App.JsNum.fin 1001

/-- A distance oracle measuring 250 meters. -/
def dm250 : App.JsNum → App.JsNum → App.JsNum := fun _ _ => App.JsNum.fin 250

/-- A signed-in session. -/
def sessA : App.Session := { userId := "u1" }

/-- An open shift row with a clock-in and no clock-out. -/
def rowOpen : App.AttRow :=
  { id := "r1", user_id := "u1", work_date := "2026-10-11", status := "open",
    clock_in_at := some "2026-10-11T00:01:00Z", clock_out_at := none,
    clock_in_lat := some (App.JsNum.fin 37), clock_in_lng := some (App.JsNum.fin 127),
    clock_in_accuracy_m := some (App.JsNum.fin 5), clock_in_source := some "last_known",
    clock_out_lat := none, clock_out_lng := none, clock_out_accuracy_m := none,
    clock_out_source := none, created_at := "2026-10-11T00:01:00Z", updated_at := none }

/-- A clock environment with no record for today. -/
def clockEnvNoIn : App.ClockEnv :=
  { busy := false, session := some sessA, att := none, loc := none,
    nowIso := "2026-10-11T09:00:00Z", workDate := "2026-10-11",
    upsertRes := App.DbResult.err "unreached", eventRes := App.DbResult.ok () }

/-- A clock-in environment whose upsert succeeds and whose audit-event
insert fails. -/
def clockEnvInOk : App.ClockEnv :=
  { busy := false, session := some sessA, att := none,
    loc := some App.fallbackCenterLoc, nowIso := "2026-10-11T09:00:00Z",
    workDate := "2026-10-11", upsertRes := App.DbResult.ok rowOpen,
    eventRes := App.DbResult.err "event insert failed" }

/-- A clock-out environment over the open row, upsert ok, event insert
failing. -/
def clockEnvOutOk : App.ClockEnv :=
  { busy := false, session := some sessA, att := some rowOpen,
    loc := some App.fallbackCenterLoc, nowIso := "2026-10-11T18:00:00Z",
    workDate := "2026-10-11", upsertRes := App.DbResult.ok rowOpen,
    eventRes := App.DbResult.err "event insert failed" }

/-! Helper lemmas. -/

theorem chunksAux_nil (fuel : Nat) : Push.chunksAux fuel [] = [] := by
  cases fuel <;> rfl

theorem chunksAux_step (fuel : Nat) (l : List String) (h : l ≠ []) :
    Push.chunksAux (fuel + 1) l = l.take 90 :: Push.chunksAux fuel (l.drop 90) := by
  cases l with
  | nil => exact absurd rfl h
  | cons a t => rfl

theorem havTerm_symm (lat1 lon1 lat2 lon2 : ℝ) :
    Hav.havTerm lat2 lon2 lat1 lon1 = Hav.havTerm lat1 lon1 lat2 lon2 := by
  unfold Hav.havTerm Hav.toRad
  have h1 : (lat1 - lat2) * Real.pi / 180 / 2 =
      -((lat2 - lat1) * Real.pi / 180 / 2) := by ring
  have h2 : (lon1 - lon2) * Real.pi / 180 / 2 =
      -((lon2 - lon1) * Real.pi / 180 / 2) := by ring
  rw [h1, h2, Real.sin_neg, Real.sin_neg]
  ring

theorem havTerm_self (lat lon : ℝ) : Hav.havTerm lat lon lat lon = 0 := by
  unfold Hav.havTerm Hav.toRad
  simp

/-! Claim theorems. -/

set_option maxRecDepth 40000 in
/-- Claim C1, counterexample: with 250 eligible tokens and the second of
the three gateway calls failing, the relay answers sent = 160 (the first
and third batches), not sent = 90 as the claim states. -/
theorem c1_push_relay_counterexample :
    Push.relay c1Tokens c1Gateway =
      Push.PushResponse.success 250 160 [true, false, true] ∧
    ∀ rs : List Bool,
      Push.relay c1Tokens c1Gateway ≠ Push.PushResponse.success 250 90 rs := by
  have h : Push.relay c1Tokens c1Gateway =
      Push.PushResponse.success 250 160 [true, false, true] := by decide
  refine ⟨h, ?_⟩
  intro rs hEq
  rw [h] at hEq
  simp at hEq

/-- Claim C1, amended: for 250 eligible push tokens the relay partitions
them into exactly 3 gateway calls of sizes 90, 90 and 70; if the second
batch's gateway call fails while the first and third succeed, the returned
sent equals 160 (the first and third batches — the code counts every batch
whose gateway call succeeded), and the response still has ok:true and a
results array of length 3. -/
theorem c1_push_relay_batching (tokens : List String) (g : Nat → Bool)
    (hlen : tokens.length = 250) (h0 : g 0 = true) (h1 : g 1 = false)
    (h2 : g 2 = true) :
    (Push.chunks tokens).map List.length = [90, 90, 70] ∧
    Push.relay tokens g = Push.PushResponse.success 250 160 [true, false, true] ∧
    (Push.relay tokens g).okTrue = true := by
  have hne : tokens ≠ [] := by
    intro hmt; rw [hmt] at hlen; simp at hlen
  have hlen2 : (tokens.drop 90).length = 160 := by
    rw [List.length_drop, hlen]
  have hne2 : tokens.drop 90 ≠ [] := by
    intro hmt; rw [hmt] at hlen2; simp at hlen2
  have hlen3 : ((tokens.drop 90).drop 90).length = 70 := by
    rw [List.length_drop, hlen2]
  have hne3 : (tokens.drop 90).drop 90 ≠ [] := by
    intro hmt; rw [hmt] at hlen3; simp at hlen3
  have hnil : (((tokens.drop 90).drop 90).drop 90) = [] := by
    have : (((tokens.drop 90).drop 90).drop 90).length = 0 := by
      rw [List.length_drop, hlen3]
    exact List.eq_nil_of_length_eq_zero this
  have hc : Push.chunks tokens =
      [tokens.take 90, (tokens.drop 90).take 90,
        ((tokens.drop 90).drop 90).take 90] := by
    rw [Push.chunks, hlen]
    rw [show (250 : Nat) = 249 + 1 from rfl, chunksAux_step 249 tokens hne]
    rw [show (249 : Nat) = 248 + 1 from rfl, chunksAux_step 248 _ hne2]
    rw [show (248 : Nat) = 247 + 1 from rfl, chunksAux_step 247 _ hne3]
    rw [hnil, chunksAux_nil]
  have hL0 : (tokens.take 90).length = 90 := by
    rw [List.length_take]; omega
  have hL1 : ((tokens.drop 90).take 90).length = 90 := by
    rw [List.length_take, List.length_drop]; omega
  have hL2 : (((tokens.drop 90).drop 90).take 90).length = 70 := by
    rw [List.length_take, List.length_drop, List.length_drop]; omega
  have hmap : (Push.chunks tokens).map List.length = [90, 90, 70] := by
    rw [hc, List.map_cons, List.map_cons, List.map_cons, List.map_nil,
      hL0, hL1, hL2]
  have hrel : Push.relay tokens g =
      Push.PushResponse.success 250 160 [true, false, true] := by
    rw [Push.relay, hc, hlen]
    norm_num
    simp only [Push.relayLoop, h0, h1, h2]
    simp [List.length_take, List.length_drop, hlen]
  exact ⟨hmap, hrel, by rw [hrel]; rfl⟩

/-- Witness for C1 at the concrete input: 250 replicated eligible tokens
with the second gateway call failing. -/
theorem c1_push_relay_batching_witness :
    (Push.chunks c1Tokens).map List.length = [90, 90, 70] ∧
    Push.relay c1Tokens c1Gateway =
      Push.PushResponse.success 250 160 [true, false, true] ∧
    (Push.relay c1Tokens c1Gateway).okTrue = true :=
  c1_push_relay_batching c1Tokens c1Gateway (by simp only [c1Tokens, List.length_replicate]) rfl rfl rfl

/-- Claim C2, evaluated at the failing event order: when the 9-second timer
fires before the watchPositionAsync promise resolves, the promise is rejected
with GPS_TIMEOUT, and when the promise then resolves, the .then handler
stores the subscription without any settled check, so the subscription stays
active after the promise settled — the teardown the claim asserts does not
happen on this interleaving. -/
theorem c2_watch_subscription_leak :
    (Watch.runW [.timerFire, .watchOk]).settled = true ∧
    (Watch.runW [.timerFire, .watchOk]).result = some Watch.WResult.timeout ∧
    (Watch.runW [.timerFire, .watchOk]).subActive = true := by
  decide

/-- Claim C3: the acquisition chain tries last-known (2.5s), low-accuracy
single shot (8s), balanced watch (9s), high-accuracy watch (9s) in this
fixed order under one outer deadline (25s); every earlier step that throws,
times out or returns null is swallowed and the next step attempted; the
result is the first step that succeeds, and none is surfaced only when
every step failed or the outer deadline elapsed. -/
theorem c3_acquisition_cascade {Pos : Type} (lk : Option (Option Pos))
    (cl wb wh : Option Pos) :
    (Chain.LAST_KNOWN_TIMEOUT_MS = 2500 ∧
      Chain.CURRENT_LOWEST_TIMEOUT_MS = 8000 ∧
      Chain.WATCH_BALANCED_TIMEOUT_MS = 9000 ∧
      Chain.WATCH_HIGH_TIMEOUT_MS = 9000 ∧
      Chain.GPS_TOTAL_TIMEOUT_MS = 25000) ∧
    (∀ p, lk = some (some p) →
      Chain.getReliablePositionForPhoneTotalTimeout false lk cl wb wh =
        some (p, "last_known")) ∧
    (∀ p, (lk = none ∨ lk = some none) → cl = some p →
      Chain.getReliablePositionForPhoneTotalTimeout false lk cl wb wh =
        some (p, "current_lowest")) ∧
    (∀ p, (lk = none ∨ lk = some none) → cl = none → wb = some p →
      Chain.getReliablePositionForPhoneTotalTimeout false lk cl wb wh =
        some (p, "watch_balanced")) ∧
    (∀ p, (lk = none ∨ lk = some none) → cl = none → wb = none → wh = some p →
      Chain.getReliablePositionForPhoneTotalTimeout false lk cl wb wh =
        some (p, "watch_high")) ∧
    (Chain.getReliablePositionForPhoneTotalTimeout true lk cl wb wh = none) ∧
    (∀ outer : Bool,
      Chain.getReliablePositionForPhoneTotalTimeout outer lk cl wb wh = none →
      outer = true ∨
        ((lk = none ∨ lk = some none) ∧ cl = none ∧ wb = none ∧ wh = none)) := by
  refine ⟨⟨rfl, rfl, rfl, rfl, rfl⟩, ?_, ?_, ?_, ?_, ?_, ?_⟩
  · intro p hp
    subst hp
    simp [Chain.getReliablePositionForPhoneTotalTimeout, Chain.chainBody]
  · intro p hlk hcl
    subst hcl
    rcases hlk with h | h <;> subst h <;>
      simp [Chain.getReliablePositionForPhoneTotalTimeout, Chain.chainBody]
  · intro p hlk hcl hwb
    subst hcl
    subst hwb
    rcases hlk with h | h <;> subst h <;>
      simp [Chain.getReliablePositionForPhoneTotalTimeout, Chain.chainBody]
  · intro p hlk hcl hwb hwh
    subst hcl
    subst hwb
    subst hwh
    rcases hlk with h | h <;> subst h <;>
      simp [Chain.getReliablePositionForPhoneTotalTimeout, Chain.chainBody]
  · simp [Chain.getReliablePositionForPhoneTotalTimeout]
  · intro outer h
    cases outer with
    | true => exact Or.inl rfl
    | false =>
      refine Or.inr ?_
      rcases lk with _ | (_ | p0) <;> rcases cl with _ | p1 <;>
        rcases wb with _ | p2 <;> rcases wh with _ | p3 <;>
        simp_all [Chain.getReliablePositionForPhoneTotalTimeout, Chain.chainBody]

/-- Claim C5: distanceMeters is a deterministic pure function (a Lean
function of its four arguments), it is symmetric, it vanishes on equal
points, and it is definitionally the haversine formula with Earth radius
6371000 meters. -/
theorem c5_distance_symmetric_and_zero :
    (∀ lat1 lon1 lat2 lon2 : ℝ,
      Hav.distanceMeters lat1 lon1 lat2 lon2 =
        Hav.distanceMeters lat2 lon2 lat1 lon1) ∧
    (∀ lat lon : ℝ, Hav.distanceMeters lat lon lat lon = 0) ∧
    (∀ lat1 lon1 lat2 lon2 : ℝ,
      Hav.distanceMeters lat1 lon1 lat2 lon2 =
        6371000 *
          (2 * Hav.atan2 (Real.sqrt (Hav.havTerm lat1 lon1 lat2 lon2))
            (Real.sqrt (1 - Hav.havTerm lat1 lon1 lat2 lon2)))) := by
  refine ⟨?_, ?_, ?_⟩
  · intro a b c d
    unfold Hav.distanceMeters
    rw [havTerm_symm a b c d]
  · intro a b
    unfold Hav.distanceMeters
    rw [havTerm_self, Real.sqrt_zero, sub_zero, Real.sqrt_one, Hav.atan2]
    rw [if_pos (by norm_num : (0 : ℝ) < 1)]
    simp [Real.arctan_zero]
  · intro a b c d
    rfl

theorem grantedPath_reduce (allow : Bool)
    (dM : App.JsNum → App.JsNum → App.JsNum) (env : App.LocEnv)
    (h : App.grantedPath env) :
    App.getCurrentLocationChecked allow dM env =
      App.acquisitionPart allow dM env.acq := by
  obtain ⟨hs, hp⟩ := h
  rcases hp with hp | ⟨s0, hs0, hneq, hreq⟩
  · simp [App.getCurrentLocationChecked, hs, hp]
  · simp [App.getCurrentLocationChecked, hs, hs0, hneq, hreq]

theorem acquisitionPart_res_cases (allow : Bool)
    (dM : App.JsNum → App.JsNum → App.JsNum) (acq : Option App.AcqRes)
    (loc : App.ClockLoc)
    (h : (App.acquisitionPart allow dM acq).res = some loc) :
    loc = App.fallbackCenterLoc ∨
      ∃ r d, acq = some r ∧ r.latitude.isFinite = true ∧
        r.longitude.isFinite = true ∧
        dM r.latitude r.longitude = App.JsNum.fin d ∧
        ¬d > App.MAX_DISTANCE_M ∧
        loc = { lat := r.latitude, lng := r.longitude,
                dist := App.JsNum.fin d, accuracy := r.accuracy,
                fallback := false,
                source := if r.source = "" then "gps" else r.source } := by
  rcases acq with _ | r
  · cases allow <;> simp [App.acquisitionPart] at h
    exact Or.inl h.symm
  · by_cases hfin : (r.latitude.isFinite && r.longitude.isFinite) = true
    · rcases hdm : dM r.latitude r.longitude with d | _ | _ | _
      · by_cases hgt : d > App.MAX_DISTANCE_M
        · simp [App.acquisitionPart, hfin, hdm, hgt] at h
        · simp [App.acquisitionPart, hfin, hdm, hgt] at h
          exact Or.inr ⟨r, d, rfl, (Bool.and_eq_true _ _).mp hfin |>.1,
            (Bool.and_eq_true _ _).mp hfin |>.2, hdm, hgt, h.symm⟩
      all_goals cases allow <;> simp [App.acquisitionPart, hfin, hdm] at h
      all_goals exact Or.inl h.symm
    · have hfin2 : (r.latitude.isFinite && r.longitude.isFinite) = false := by
        revert hfin; cases r.latitude.isFinite && r.longitude.isFinite <;> simp
      cases allow <;> simp [App.acquisitionPart, hfin2] at h
      exact Or.inl h.symm

theorem getCurrentLocationChecked_res_cases (allow : Bool)
    (dM : App.JsNum → App.JsNum → App.JsNum) (env : App.LocEnv)
    (loc : App.ClockLoc)
    (h : (App.getCurrentLocationChecked allow dM env).res = some loc) :
    loc = App.fallbackCenterLoc ∨
      ∃ r d, env.acq = some r ∧ r.latitude.isFinite = true ∧
        r.longitude.isFinite = true ∧
        dM r.latitude r.longitude = App.JsNum.fin d ∧
        ¬d > App.MAX_DISTANCE_M ∧
        loc = { lat := r.latitude, lng := r.longitude,
                dist := App.JsNum.fin d, accuracy := r.accuracy,
                fallback := false,
                source := if r.source = "" then "gps" else r.source } := by
  rcases henv : env.services with _ | b
  · cases allow <;>
      simp [App.getCurrentLocationChecked, henv, App.catchOutcome] at h
    exact Or.inl h.symm
  · cases b
    · simp [App.getCurrentLocationChecked, henv] at h
    · rcases hp0 : env.perm0 with _ | st0
      · cases allow <;>
          simp [App.getCurrentLocationChecked, henv, hp0, App.catchOutcome] at h
        exact Or.inl h.symm
      · by_cases hst : st0 = "granted"
        · have h2 : (App.acquisitionPart allow dM env.acq).res = some loc := by
            simpa [App.getCurrentLocationChecked, henv, hp0, hst] using h
          exact acquisitionPart_res_cases allow dM env.acq loc h2
        · rcases hpr : env.permReq with _ | st1
          · cases allow <;>
              simp [App.getCurrentLocationChecked, henv, hp0, hst, hpr,
                App.catchOutcome] at h
            exact Or.inl h.symm
          · by_cases hst1 : st1 = "granted"
            · have h2 : (App.acquisitionPart allow dM env.acq).res = some loc := by
                simpa [App.getCurrentLocationChecked, henv, hp0, hst, hpr,
                  hst1] using h
              exact acquisitionPart_res_cases allow dM env.acq loc h2
            · simp [App.getCurrentLocationChecked, henv, hp0, hst, hpr, hst1] at h

theorem acquisitionPart_distCalls (allow : Bool)
    (dM : App.JsNum → App.JsNum → App.JsNum) (acq : Option App.AcqRes)
    (pr : App.JsNum × App.JsNum)
    (h : pr ∈ (App.acquisitionPart allow dM acq).distCalls) :
    pr.1.isFinite = true ∧ pr.2.isFinite = true := by
  rcases acq with _ | r
  · cases allow <;> simp [App.acquisitionPart] at h
  · by_cases hfin : (r.latitude.isFinite && r.longitude.isFinite) = true
    · have hlatlng := (Bool.and_eq_true _ _).mp hfin
      rcases hdm : dM r.latitude r.longitude with d | _ | _ | _
      · by_cases hgt : d > App.MAX_DISTANCE_M
        · simp [App.acquisitionPart, hfin, hdm, hgt] at h
          rw [h]
          exact hlatlng
        · simp [App.acquisitionPart, hfin, hdm, hgt] at h
          rw [h]
          exact hlatlng
      all_goals cases allow <;> simp [App.acquisitionPart, hfin, hdm] at h
      all_goals rw [h]
      all_goals exact hlatlng
    · have hfin2 : (r.latitude.isFinite && r.longitude.isFinite) = false := by
        revert hfin; cases r.latitude.isFinite && r.longitude.isFinite <;> simp
      cases allow <;> simp [App.acquisitionPart, hfin2] at h

theorem getCurrentLocationChecked_distCalls (allow : Bool)
    (dM : App.JsNum → App.JsNum → App.JsNum) (env : App.LocEnv)
    (pr : App.JsNum × App.JsNum)
    (h : pr ∈ (App.getCurrentLocationChecked allow dM env).distCalls) :
    pr.1.isFinite = true ∧ pr.2.isFinite = true := by
  rcases henv : env.services with _ | b
  · cases allow <;>
      simp [App.getCurrentLocationChecked, henv, App.catchOutcome] at h
  · cases b
    · simp [App.getCurrentLocationChecked, henv] at h
    · rcases hp0 : env.perm0 with _ | st0
      · cases allow <;>
          simp [App.getCurrentLocationChecked, henv, hp0, App.catchOutcome] at h
      · by_cases hst : st0 = "granted"
        · have h2 : pr ∈ (App.acquisitionPart allow dM env.acq).distCalls := by
            simpa [App.getCurrentLocationChecked, henv, hp0, hst] using h
          exact acquisitionPart_distCalls allow dM env.acq pr h2
        · rcases hpr : env.permReq with _ | st1
          · cases allow <;>
              simp [App.getCurrentLocationChecked, henv, hp0, hst, hpr,
                App.catchOutcome] at h
          · by_cases hst1 : st1 = "granted"
            · have h2 : pr ∈ (App.acquisitionPart allow dM env.acq).distCalls := by
                simpa [App.getCurrentLocationChecked, henv, hp0, hst, hpr,
                  hst1] using h
              exact acquisitionPart_distCalls allow dM env.acq pr h2
            · simp [App.getCurrentLocationChecked, henv, hp0, hst, hpr, hst1] at h

/-- Claim C4: with a finite measured distance d from the configured center,
the fix is accepted exactly when d is at most 1000 meters and rejected when
d exceeds 1000 meters, and the rejection alert body carries the rounded
measured distance. -/
theorem c4_geofence_boundary (allow : Bool)
    (dM : App.JsNum → App.JsNum → App.JsNum) (env : App.LocEnv)
    (r : App.AcqRes) (d : ℚ) (hgp : App.grantedPath env)
    (hacq : env.acq = some r) (hlat : r.latitude.isFinite = true)
    (hlng : r.longitude.isFinite = true)
    (hdm : dM r.latitude r.longitude = App.JsNum.fin d) :
    App.CENTER_LAT = 37.0778566841938 ∧
    App.CENTER_LNG = 126.954553958864 ∧
    App.MAX_DISTANCE_M = 1000 ∧
    (d ≤ 1000 →
      (App.getCurrentLocationChecked allow dM env).res =
        some { lat := r.latitude, lng := r.longitude,
               dist := App.JsNum.fin d, accuracy := r.accuracy,
               fallback := false,
               source := if r.source = "" then "gps" else r.source } ∧
      (App.getCurrentLocationChecked allow dM env).alerts = []) ∧
    (1000 < d →
      (App.getCurrentLocationChecked allow dM env).res = none ∧
      (App.getCurrentLocationChecked allow dM env).alerts =
        [App.LocAlert.outOfRange (App.jsRound d)] ∧
      ∃ pre post,
        App.locAlertMessage (App.LocAlert.outOfRange (App.jsRound d)) =
          pre ++ toString (App.jsRound d) ++ post) := by
  have hred := grantedPath_reduce allow dM env hgp
  have hfin : (r.latitude.isFinite && r.longitude.isFinite) = true := by
    rw [hlat, hlng]; rfl
  refine ⟨rfl, rfl, rfl, ?_, ?_⟩
  · intro hle
    have hgt : ¬d > App.MAX_DISTANCE_M := not_lt.mpr hle
    rw [hred, hacq]
    simp [App.acquisitionPart, hfin, hdm, hgt]
  · intro hlt
    have hgt : d > App.MAX_DISTANCE_M := hlt
    rw [hred, hacq]
    refine ⟨?_, ?_, "센터 기준 1km 이내에서만 가능합니다.\n현재 거리: ", "m", rfl⟩
    · simp [App.acquisitionPart, hfin, hdm, hgt]
    · simp [App.acquisitionPart, hfin, hdm, hgt]

/-- Witness for C4 at a concrete input: a finite fix measured 1001 meters
from the center is rejected with the rounded distance in the alert. -/
theorem c4_geofence_boundary_witness :
    (App.getCurrentLocationChecked true dm1001 envFar).res = none ∧
    (App.getCurrentLocationChecked true dm1001 envFar).alerts =
      [App.LocAlert.outOfRange (App.jsRound 1001)] ∧
    (1000 : ℚ) < 1001 := by
  have h := c4_geofence_boundary true dm1001 envFar acqFar 1001
    ⟨rfl, Or.inl rfl⟩ rfl rfl rfl rfl
  have h2 := h.2.2.2.2 (by norm_num)
  exact ⟨h2.1, h2.2.1, by norm_num⟩

/-- Claim C9: an acquired position with a non-finite latitude or longitude
is routed to the same fallback-or-hard-fail branch as a complete acquisition
failure (the fallback-center fix when the flag is set, otherwise an error
alert and no fix), the geofence distance is never computed on it, and more
generally the distance function and every returned fix only ever see finite
coordinates. -/
theorem c9_nonfinite_coords_guard :
    (∀ (allow : Bool) (dM : App.JsNum → App.JsNum → App.JsNum)
      (env : App.LocEnv) (r : App.AcqRes), App.grantedPath env →
      env.acq = some r →
      (r.latitude.isFinite && r.longitude.isFinite) = false →
      App.getCurrentLocationChecked allow dM env =
        (if allow then
          { res := some App.fallbackCenterLoc, alerts := [], distCalls := [] }
        else
          { res := none, alerts := [App.LocAlert.coordInvalid],
            distCalls := [] }) ∧
      (App.getCurrentLocationChecked allow dM env).res =
        (App.getCurrentLocationChecked allow dM { env with acq := none }).res ∧
      (App.getCurrentLocationChecked allow dM env).distCalls = []) ∧
    (∀ (allow : Bool) (dM : App.JsNum → App.JsNum → App.JsNum)
      (env : App.LocEnv) (pr : App.JsNum × App.JsNum),
      pr ∈ (App.getCurrentLocationChecked allow dM env).distCalls →
      pr.1.isFinite = true ∧ pr.2.isFinite = true) ∧
    (∀ (allow : Bool) (dM : App.JsNum → App.JsNum → App.JsNum)
      (env : App.LocEnv) (loc : App.ClockLoc),
      (App.getCurrentLocationChecked allow dM env).res = some loc →
      loc.lat.isFinite = true ∧ loc.lng.isFinite = true) := by
  refine ⟨?_, ?_, ?_⟩
  · intro allow dM env r hgp hacq hfin
    have h2 : App.grantedPath { env with acq := none } := hgp
    have hred := grantedPath_reduce allow dM env hgp
    have hred2 := grantedPath_reduce allow dM { env with acq := none } h2
    refine ⟨?_, ?_, ?_⟩
    · rw [hred, hacq]
      cases allow <;> simp [App.acquisitionPart, hfin]
    · rw [hred, hred2, hacq]
      cases allow <;> simp [App.acquisitionPart, hfin]
    · rw [hred, hacq]
      cases allow <;> simp [App.acquisitionPart, hfin]
  · intro allow dM env pr h
    exact getCurrentLocationChecked_distCalls allow dM env pr h
  · intro allow dM env loc h
    rcases getCurrentLocationChecked_res_cases allow dM env loc h with
      hfb | ⟨r, d, _, hlat, hlng, _, _, hloc⟩
    · subst hfb; exact ⟨rfl, rfl⟩
    · subst hloc; exact ⟨hlat, hlng⟩

/-- Witness for C9 at a concrete input: the NaN-latitude acquisition with
the fallback flag set yields the fallback-center fix and computes no
distance. -/
theorem c9_nonfinite_coords_guard_witness :
    App.getCurrentLocationChecked true dm250 envNan =
      { res := some App.fallbackCenterLoc, alerts := [], distCalls := [] } ∧
    (App.getCurrentLocationChecked true dm250 envNan).res =
      (App.getCurrentLocationChecked true dm250 envNone).res := by
  have h := c9_nonfinite_coords_guard.1 true dm250 envNan acqNan
    ⟨rfl, Or.inl rfl⟩ rfl rfl
  exact ⟨h.1, h.2.1⟩

/-- Claim C10: every fix getCurrentLocationChecked returns has finite
coordinates and a finite distance of at most MAX_DISTANCE_M; every fallback
result is exactly the fallback-center fix (center coordinates, distance 0,
null accuracy, source fallback_center); and with the fallback flag set (as
the shipped constant is) a run whose acquisition failed entirely returns the
fallback fix, so it passes the geofence step. -/
theorem c10_location_result_invariants :
    (∀ (allow : Bool) (dM : App.JsNum → App.JsNum → App.JsNum)
      (env : App.LocEnv) (loc : App.ClockLoc),
      (App.getCurrentLocationChecked allow dM env).res = some loc →
      loc.lat.isFinite = true ∧ loc.lng.isFinite = true ∧
        ∃ d : ℚ, loc.dist = App.JsNum.fin d ∧ d ≤ App.MAX_DISTANCE_M) ∧
    (∀ (allow : Bool) (dM : App.JsNum → App.JsNum → App.JsNum)
      (env : App.LocEnv) (loc : App.ClockLoc),
      (App.getCurrentLocationChecked allow dM env).res = some loc →
      loc.fallback = true → loc = App.fallbackCenterLoc) ∧
    App.fallbackCenterLoc =
      { lat := App.JsNum.fin App.CENTER_LAT,
        lng := App.JsNum.fin App.CENTER_LNG, dist := App.JsNum.fin 0,
        accuracy := none, fallback := true, source := "fallback_center" } ∧
    App.ALLOW_FALLBACK_CLOCK = true ∧
    (∀ (dM : App.JsNum → App.JsNum → App.JsNum) (env : App.LocEnv),
      App.grantedPath env → env.acq = none →
      (App.getCurrentLocationChecked App.ALLOW_FALLBACK_CLOCK dM env).res =
        some App.fallbackCenterLoc) := by
  refine ⟨?_, ?_, rfl, rfl, ?_⟩
  · intro allow dM env loc h
    rcases getCurrentLocationChecked_res_cases allow dM env loc h with
      hfb | ⟨r, d, _, hlat, hlng, _, hgt, hloc⟩
    · subst hfb
      refine ⟨rfl, rfl, 0, rfl, by norm_num [App.MAX_DISTANCE_M]⟩
    · subst hloc
      exact ⟨hlat, hlng, d, rfl, le_of_not_lt hgt⟩
  · intro allow dM env loc h hfb
    rcases getCurrentLocationChecked_res_cases allow dM env loc h with
      hloc | ⟨r, d, _, _, _, _, _, hloc⟩
    · exact hloc
    · subst hloc; simp at hfb
  · intro dM env hgp hacq
    rw [grantedPath_reduce App.ALLOW_FALLBACK_CLOCK dM env hgp, hacq]
    rfl

/-- Witness for C10 at a concrete input: a complete acquisition failure
with the shipped fallback flag returns the fallback-center fix, whose
distance 0 passes the geofence bound. -/
theorem c10_location_result_invariants_witness :
    (App.getCurrentLocationChecked App.ALLOW_FALLBACK_CLOCK dm250 envNone).res =
      some App.fallbackCenterLoc ∧
    App.fallbackCenterLoc.dist = App.JsNum.fin 0 ∧
    (0 : ℚ) ≤ App.MAX_DISTANCE_M := by
  have h := c10_location_result_invariants.2.2.2.2 dm250 envNone
    ⟨rfl, Or.inl rfl⟩ rfl
  exact ⟨h, rfl, by norm_num [App.MAX_DISTANCE_M]⟩

/-- Claim C6: a clock-out invoked while today's record has no clock-in
timestamp (including no record at all) is rejected with the no-clock-in
informational alert before any backend write: no work_shifts upsert, no
work_events insert, the in-memory record unchanged and the busy flag
cleared. -/
theorem c6_clockout_requires_clockin (env : App.ClockEnv) (s : App.Session)
    (hb : env.busy = false) (hs : env.session = some s)
    (hin : Option.bind env.att App.AttRow.clock_in_at = none) :
    App.doClockOut env =
      { att := env.att, alerts := [App.ClockAlert.infoNoClockIn],
        shiftWrites := [], eventWrites := [], eventOk := none,
        busyAfter := false } := by
  simp [App.doClockOut, hb, hs, hin]

/-- Witness for C6 at a concrete input: clock-out with no record today. -/
theorem c6_clockout_requires_clockin_witness :
    App.doClockOut clockEnvNoIn =
      { att := none, alerts := [App.ClockAlert.infoNoClockIn],
        shiftWrites := [], eventWrites := [], eventOk := none,
        busyAfter := false } :=
  c6_clockout_requires_clockin clockEnvNoIn sessA rfl rfl rfl

/-- Claim C7: the clock-out upsert payload is keyed by user and work date
and sets only status closed and the clock-out fields; applied to an
existing row by the backend upsert, every clock-in column keeps its old
value; and a clock-out invocation that reaches persistence attempts exactly
this payload. -/
theorem c7_clockout_writes_only_clockout_fields (old : App.AttRow)
    (uid wd nowIso : String) (loc : App.ClockLoc) (src : String) :
    (App.applyShiftPayload old
      (App.clockOutPayload uid wd nowIso loc src)).clock_in_at =
        old.clock_in_at ∧
    (App.applyShiftPayload old
      (App.clockOutPayload uid wd nowIso loc src)).clock_in_lat =
        old.clock_in_lat ∧
    (App.applyShiftPayload old
      (App.clockOutPayload uid wd nowIso loc src)).clock_in_lng =
        old.clock_in_lng ∧
    (App.applyShiftPayload old
      (App.clockOutPayload uid wd nowIso loc src)).clock_in_accuracy_m =
        old.clock_in_accuracy_m ∧
    (App.applyShiftPayload old
      (App.clockOutPayload uid wd nowIso loc src)).clock_in_source =
        old.clock_in_source ∧
    (App.applyShiftPayload old
      (App.clockOutPayload uid wd nowIso loc src)).created_at =
        old.created_at ∧
    (App.applyShiftPayload old
      (App.clockOutPayload uid wd nowIso loc src)).status = "closed" ∧
    (App.applyShiftPayload old
      (App.clockOutPayload uid wd nowIso loc src)).clock_out_at =
        some nowIso ∧
    (App.applyShiftPayload old
      (App.clockOutPayload uid wd nowIso loc src)).clock_out_lat =
        some loc.lat ∧
    (App.applyShiftPayload old
      (App.clockOutPayload uid wd nowIso loc src)).clock_out_lng =
        some loc.lng ∧
    (App.applyShiftPayload old
      (App.clockOutPayload uid wd nowIso loc src)).clock_out_accuracy_m =
        loc.accuracy ∧
    (App.applyShiftPayload old
      (App.clockOutPayload uid wd nowIso loc src)).clock_out_source =
        some src ∧
    (App.applyShiftPayload old
      (App.clockOutPayload uid wd nowIso loc src)).user_id = uid ∧
    (App.applyShiftPayload old
      (App.clockOutPayload uid wd nowIso loc src)).work_date = wd ∧
    (∀ (env : App.ClockEnv) (s : App.Session) (l : App.ClockLoc) (t : String),
      env.busy = false → env.session = some s →
      Option.bind env.att App.AttRow.clock_in_at = some t →
      Option.bind env.att App.AttRow.clock_out_at = none →
      env.loc = some l →
      (App.doClockOut env).shiftWrites =
        [App.clockOutPayload s.userId env.workDate env.nowIso l l.source]) := by
  refine ⟨rfl, rfl, rfl, rfl, rfl, rfl, rfl, rfl, rfl, rfl, rfl, rfl, rfl,
    rfl, ?_⟩
  intro env s l t hb hs hin hout hloc
  rcases hup : env.upsertRes with m | row <;>
    simp [App.doClockOut, hb, hs, hin, hout, hloc, hup]

/-- Claim C8: once the shift-record upsert succeeded, the audit-event
insert is best-effort: whatever its outcome, the operation completes as a
success (in-memory record set to the returned row, success alert, no
failure alert, the one upsert not rolled back, busy cleared), and the whole
outcome apart from the recorded insert result is independent of whether
the insert failed — for both clock-in and clock-out. -/
theorem c8_audit_event_best_effort :
    (∀ (env : App.ClockEnv) (s : App.Session) (row : App.AttRow)
      (loc : App.ClockLoc), env.busy = false → env.session = some s →
      Option.bind env.att App.AttRow.clock_in_at = none →
      env.loc = some loc → env.upsertRes = App.DbResult.ok row →
      (App.doClockIn env).att = some row ∧
      (App.doClockIn env).alerts = [App.ClockAlert.successIn env.nowIso] ∧
      (App.doClockIn env).shiftWrites =
        [App.clockInPayload s.userId env.workDate env.nowIso loc loc.source] ∧
      (App.doClockIn env).busyAfter = false) ∧
    (∀ (env : App.ClockEnv) (s : App.Session) (row : App.AttRow)
      (loc : App.ClockLoc) (t : String), env.busy = false →
      env.session = some s →
      Option.bind env.att App.AttRow.clock_in_at = some t →
      Option.bind env.att App.AttRow.clock_out_at = none →
      env.loc = some loc → env.upsertRes = App.DbResult.ok row →
      (App.doClockOut env).att = some row ∧
      (App.doClockOut env).alerts = [App.ClockAlert.successOut env.nowIso] ∧
      (App.doClockOut env).shiftWrites =
        [App.clockOutPayload s.userId env.workDate env.nowIso loc loc.source] ∧
      (App.doClockOut env).busyAfter = false) ∧
    (∀ (env : App.ClockEnv) (e1 e2 : App.DbResult Unit),
      { App.doClockIn { env with eventRes := e1 } with eventOk := none } =
      { App.doClockIn { env with eventRes := e2 } with eventOk := none }) ∧
    (∀ (env : App.ClockEnv) (e1 e2 : App.DbResult Unit),
      { App.doClockOut { env with eventRes := e1 } with eventOk := none } =
      { App.doClockOut { env with eventRes := e2 } with eventOk := none }) := by
  refine ⟨?_, ?_, ?_, ?_⟩
  · intro env s row loc hb hs hin hloc hup
    refine ⟨?_, ?_, ?_, ?_⟩ <;> simp [App.doClockIn, hb, hs, hin, hloc, hup]
  · intro env s row loc t hb hs hin hout hloc hup
    refine ⟨?_, ?_, ?_, ?_⟩ <;>
      simp [App.doClockOut, hb, hs, hin, hout, hloc, hup]
  · intro env e1 e2
    rcases env with ⟨b, ss, att, loc, now, wd, up, ev⟩
    cases b with
    | true => rfl
    | false =>
      cases ss with
      | none => rfl
      | some s =>
        rcases hbind : Option.bind att App.AttRow.clock_in_at with _ | t
        · cases loc with
          | none => simp [App.doClockIn, hbind]
          | some l =>
            cases up with
            | err m => simp [App.doClockIn, hbind]
            | ok row => simp [App.doClockIn, hbind]
        · simp [App.doClockIn, hbind]
  · intro env e1 e2
    rcases env with ⟨b, ss, att, loc, now, wd, up, ev⟩
    cases b with
    | true => rfl
    | false =>
      cases ss with
      | none => rfl
      | some s =>
        rcases hbind : Option.bind att App.AttRow.clock_in_at with _ | t
        · simp [App.doClockOut, hbind]
        · rcases hbind2 : Option.bind att App.AttRow.clock_out_at with _ | t2
          · cases loc with
            | none => simp [App.doClockOut, hbind, hbind2]
            | some l =>
              cases up with
              | err m => simp [App.doClockOut, hbind, hbind2]
              | ok row => simp [App.doClockOut, hbind, hbind2]
          · simp [App.doClockOut, hbind, hbind2]

/-- Witness for C8 at a concrete input: a clock-in whose upsert succeeded
and whose audit-event insert failed still completes as a success. -/
theorem c8_audit_event_best_effort_witness :
    (App.doClockIn clockEnvInOk).att = some rowOpen ∧
    (App.doClockIn clockEnvInOk).alerts =
      [App.ClockAlert.successIn "2026-10-11T09:00:00Z"] ∧
    (App.doClockOut clockEnvOutOk).att = some rowOpen ∧
    (App.doClockOut clockEnvOutOk).alerts =
      [App.ClockAlert.successOut "2026-10-11T18:00:00Z"] := by
  have h1 := c8_audit_event_best_effort.1 clockEnvInOk sessA rowOpen
    App.fallbackCenterLoc rfl rfl rfl rfl rfl
  have h2 := c8_audit_event_best_effort.2.1 clockEnvOutOk sessA rowOpen
    App.fallbackCenterLoc "2026-10-11T00:01:00Z" rfl rfl rfl rfl rfl rfl
  exact ⟨h1.1, h1.2.1, h2.1, h2.2.1⟩
